import Mathlib

/-!
Verification development for the multi-agent video search/transcription
pipeline (agents.py, tools.py, knowledge_base.py).

Python dictionaries, lists, strings, numbers, booleans and None are embedded
as the inductive type `Val`.  Strings are modelled by Lean `String`
(a list of characters); character classification (`isalnum`, `\s`) is the
ASCII fragment of Python's, which is exact on every input considered here.
External effects (HTTP search call, yt-dlp metadata lookup, the generative
API, the filesystem) are passed in as explicit oracle parameters, and calls
to the persistence layer are returned as explicit call logs.
-/

namespace MultiAgent

/-- Python-style JSON-like values: None, bool, int, str, list, dict
(dicts keep insertion order, as Python dicts do). -/
inductive Val where
  | vnone : Val
  | vbool : Bool → Val
  | vint : Int → Val
  | vstr : String → Val
  | vlist : List Val → Val
  | vdict : List (String × Val) → Val

/-- Python truthiness (`bool(x)`): None/False/0/empty containers are falsy. -/
def truthy : Val → Bool
  | .vnone => false
  | .vbool b => b
  | .vint n => n != 0
  | .vstr s => s != ""
  | .vlist l => !l.isEmpty
  | .vdict d => !d.isEmpty

/-- `x.isStr` is true exactly for string values. -/
def Val.isStr : Val → Bool
  | .vstr _ => true
  | _ => false

/-- Python `d[k]`: `none` models the raised KeyError/TypeError
(key missing, or the value is not a dict). -/
def vIndex : Val → String → Option Val
  | .vdict d, k => d.lookup k
  | _, _ => none

/-- Python `d.get(k, default)`: `none` models the AttributeError raised when
the receiver is not a dict. -/
def vGetD (v : Val) (k : String) (dflt : Val) : Option Val :=
  match v with
  | .vdict d => some ((d.lookup k).getD dflt)
  | _ => none

/-- Python `d[k] = v` on an association list: replaces in place, appends if
absent (Python dict assignment keeps the original key position). -/
def dictSet : List (String × Val) → String → Val → List (String × Val)
  | [], k, v => [(k, v)]
  | (k1, v1) :: rest, k, v =>
    if k1 = k then (k1, v) :: rest else (k1, v1) :: dictSet rest k v

mutual
/-- Python `repr` on these values.  String escaping inside `repr` is not
modelled (no claim exercises it); the scalar cases are exact. -/
def pyRepr : Val → String
  | .vnone => "None"
  | .vbool b => if b then "True" else "False"
  | .vint n => toString n
  | .vstr s => "\x27" ++ s ++ "\x27"
  | .vlist l => "[" ++ pyReprList l ++ "]"
  | .vdict d => "\x7b" ++ pyReprKVs d ++ "\x7d"

def pyReprList : List Val → String
  | [] => ""
  | [v] => pyRepr v
  | v :: vs => pyRepr v ++ ", " ++ pyReprList vs

def pyReprKVs : List (String × Val) → String
  | [] => ""
  | [(k, v)] => "\x27" ++ k ++ "\x27: " ++ pyRepr v
  | (k, v) :: kvs => "\x27" ++ k ++ "\x27: " ++ pyRepr v ++ ", " ++ pyReprKVs kvs
end

/-- Python `str(x)`: identity on strings, `repr`-like elsewhere. -/
def pyStr : Val → String
  | .vstr s => s
  | v => pyRepr v

/-! ### Character-level string helpers (Python semantics on lists of chars) -/

/-- Python `\s` / `str.strip()` whitespace, ASCII fragment. -/
def pyIsSpace (c : Char) : Bool :=
  c == ' ' || c == '\t' || c == '\n' || c == '\r' || c == '\x0b' || c == '\x0c'

/-- Python `str.lstrip()` (no argument: strip leading whitespace). -/
def pyStripL (l : List Char) : List Char := l.dropWhile pyIsSpace

/-- Python `str.rstrip()` (no argument: strip trailing whitespace). -/
def pyStripR (l : List Char) : List Char := (l.reverse.dropWhile pyIsSpace).reverse

/-- Python `str.strip()`. -/
def pyStrip (l : List Char) : List Char := pyStripR (pyStripL l)

/-- Python `str.lower()`, via `Char.toLower` (exact on ASCII). -/
def lowerL (l : List Char) : List Char := l.map Char.toLower

/-- Index of the first occurrence of `pat` in `s` (Python `str.find`,
with `none` for -1). -/
def findSub? (pat : List Char) : List Char → Option Nat
  | [] => if pat.isEmpty then some 0 else none
  | c :: rest =>
    if pat.isPrefixOf (c :: rest) then some 0
    else (findSub? pat rest).map (· + 1)

/-- Python `s.split(sep)[...]` for the fixed separator `"\n\n"`:
non-overlapping, left to right. -/
def splitNl2 : List Char → List (List Char)
  | [] => [[]]
  | '\n' :: '\n' :: rest => [] :: splitNl2 rest
  | c :: rest =>
    match splitNl2 rest with
    | [] => [[c]]
    | p :: ps => (c :: p) :: ps

/-- Python `s.rsplit(' ', 1)[0]`: everything before the last space,
or the whole string when it contains no space. -/
def rsplitSpace1 (l : List Char) : List Char :=
  match l.reverse.dropWhile (fun c => c != ' ') with
  | [] => l
  | _ :: t => t.reverse

/-- Python `s.lstrip(':\n\r ')` from `_extract_main_content`. -/
def lstripPunct (l : List Char) : List Char :=
  l.dropWhile (fun c => c == ':' || c == '\n' || c == '\r' || c == ' ')

theorem length_dropWhile_le (p : α → Bool) (l : List α) :
    (l.dropWhile p).length ≤ l.length := by
  induction l with
  | nil => simp [List.dropWhile]
  | cons a t ih =>
    by_cases h : p a
    · simpa [List.dropWhile, h] using Nat.le_succ_of_le ih
    · simp [List.dropWhile, h]

/-- Sentence terminators of the fallback regex `(?<=[.!?])`. -/
def isSentEnd (c : Char) : Bool := c == '.' || c == '!' || c == '?'

mutual
/-- `re.split(r'(?<=[.!?])\s+', text)`: split at every maximal whitespace
run whose preceding character is `.`, `!` or `?`.  `sentGo` scans inside a
part (`acc` holds its reversed characters, `prevEnd` whether the previous
character was a terminator); `sentGap` consumes the whitespace run at a
split point. -/
def sentGo : List Char → List Char → Bool → List (List Char)
  | [], acc, _ => [acc.reverse]
  | c :: rest, acc, prevEnd =>
    if prevEnd && pyIsSpace c then acc.reverse :: sentGap rest
    else sentGo rest (c :: acc) (isSentEnd c)

def sentGap : List Char → List (List Char)
  | [] => [[]]
  | c :: rest => if pyIsSpace c then sentGap rest else sentGo rest [c] (isSentEnd c)
end

/-- Sentence list of `_extract_main_content`'s fallback:
`re.split(r'(?<=[.!?])\s+', transcription.strip())`. -/
def splitSentences (l : List Char) : List (List Char) := sentGo l [] false

/-! ### TranscriptionAgent._extract_main_content (agents.py lines 54-95) -/

/-- The fixed marker list of `_extract_main_content` (agents.py line 67),
in source order. -/
def markers : List (List Char) :=
  [("main takeaways" : String).data,
   ("main takeaways and insights" : String).data,
   ("main takeaways:" : String).data,
   ("key takeaways" : String).data,
   ("takeaways" : String).data,
   ("main takeaways and insights:" : String).data]

/-- The `for m in markers: idx = lowered.find(m); if idx != -1: ...` loop:
the first marker in list order with an occurrence wins, and the returned
number is `idx + len(m)`, the start of the following text. -/
def markerScan : List (List Char) → List Char → Option Nat
  | [], _ => none
  | m :: ms, lowered =>
    match findSub? m lowered with
    | some idx => some (idx + m.length)
    | none => markerScan ms lowered

/-- `markerScan` over the source's marker list. -/
def markerStart? (lowered : List Char) : Option Nat := markerScan markers lowered

/-- agents.py lines 80-81 and 92-93 (identical text in both places):
a candidate longer than 400 characters becomes
`candidate[:400].rsplit(' ', 1)[0] + '...'`. -/
def truncate400 (c : List Char) : List Char :=
  if 400 < c.length then rsplitSpace1 (c.take 400) ++ ("..." : String).data else c

/-- agents.py lines 74-82: the snippet pipeline applied after a marker has
been located, starting at character offset `start` of the original text. -/
def snippetFrom (t : List Char) (start : Nat) : List Char :=
  truncate400 (pyStrip ((splitNl2 (lstripPunct (pyStrip ((t.drop start).take 800)))).headD []))

/-- agents.py lines 84-90: the fallback candidate before the final
truncation check.  With at least 3 sentences it is the first three joined by
single spaces and stripped; otherwise it is the stripped text hard-cut at
400 characters. -/
def fallbackCandidate (t : List Char) : List Char :=
  let sentences := splitSentences (pyStrip t)
  if 3 ≤ sentences.length then
    pyStrip (List.intercalate [' '] (sentences.take 3))
  else
    (pyStrip t).take 400

/-- `TranscriptionAgent._extract_main_content`, character-list core. -/
def extractMainContentL (t : List Char) : List Char :=
  if t.isEmpty then []
  else
    match markerStart? (lowerL t) with
    | some start => snippetFrom t start
    | none => truncate400 (fallbackCandidate t)

/-- `TranscriptionAgent._extract_main_content` on strings. -/
def extractMainContent (s : String) : String := ⟨extractMainContentL s.data⟩

/-! ### Claims about the extractor -/

theorem rsplitSpace1_length_le (l : List Char) : (rsplitSpace1 l).length ≤ l.length := by
  unfold rsplitSpace1
  cases h : l.reverse.dropWhile (fun c => c != ' ') with
  | nil => exact le_refl _
  | cons c t =>
    have h1 : (c :: t).length ≤ l.reverse.length := by
      rw [← h]; exact length_dropWhile_le _ _
    simp only [List.length_cons, List.length_reverse] at h1 ⊢
    omega

theorem truncate400_length_le (c : List Char) : (truncate400 c).length ≤ 403 := by
  unfold truncate400
  split
  · have h1 : (rsplitSpace1 (c.take 400)).length ≤ (c.take 400).length :=
      rsplitSpace1_length_le _
    have h2 : (c.take 400).length ≤ 400 := by
      simp [List.length_take]
    have h3 : (("..." : String).data).length = 3 := rfl
    rw [List.length_append, h3]
    omega
  · omega

theorem truncate400_of_length_le (c : List Char) (h : c.length ≤ 400) :
    truncate400 c = c := by
  unfold truncate400
  rw [if_neg]
  omega

/-- C10: for every input string, `_extract_main_content` returns at most 403
characters (at most 400 characters of content plus the 3-character ellipsis
marker), so `main_content` is always a bounded-length excerpt. -/
theorem C10_extract_main_content_bounded (s : String) :
    (extractMainContent s).length ≤ 403 := by
  show (extractMainContentL s.data).length ≤ 403
  unfold extractMainContentL
  split
  · simp
  · split
    · unfold snippetFrom
      exact truncate400_length_le _
    · exact truncate400_length_le _

/-- Concrete input for C1: "key takeaways" occurs at offset 0,
"main takeaways" at the larger offset 18. -/
def c1Input : String := "key takeaways: A. main takeaways: B."

/-- C1 counterexample: in `c1Input` the marker "key takeaways" occurs at a
strictly lower offset (0) than "main takeaways" (18), yet the extractor
returns the snippet following "main takeaways" ("B."), not the snippet
following the earlier "key takeaways" occurrence
("A. main takeaways: B.").  Marker list order wins over offset order. -/
theorem C1_counterexample :
    findSub? (("key takeaways" : String).data) (lowerL c1Input.data) = some 0 ∧
    findSub? (("main takeaways" : String).data) (lowerL c1Input.data) = some 18 ∧
    String.mk (snippetFrom c1Input.data (0 + ("key takeaways" : String).length)) =
      "A. main takeaways: B." ∧
    extractMainContent c1Input = "B." ∧
    ("B." : String) ≠ "A. main takeaways: B." := by
  exact ⟨rfl, rfl, rfl, rfl, by decide⟩

/-- C1 (amended): the marker list order decides which marker wins, not the
string offset: the extractor takes the first marker in the fixed list with
any occurrence, so whenever "main takeaways" (the first listed marker)
occurs anywhere in the lowercased text, the returned snippet is the one
following that occurrence — even when "key takeaways" occurs at an earlier
offset. -/
theorem C1_amended (s : String) (i : Nat)
    (h0 : s.data ≠ [])
    (h1 : findSub? (("main takeaways" : String).data) (lowerL s.data) = some i) :
    extractMainContent s = String.mk (snippetFrom s.data (i + 14)) := by
  have he : s.data.isEmpty = false := by
    cases h : s.data with
    | nil => exact absurd h h0
    | cons a t => rfl
  have hm : markerStart? (lowerL s.data) = some (i + 14) := by
    unfold markerStart? markers markerScan
    rw [h1]
    rfl
  show String.mk (extractMainContentL s.data) = _
  unfold extractMainContentL
  rw [he, hm]
  rfl

/-- C1 witness: a concrete run of `C1_amended` on `c1Input`. -/
theorem C1_amended_witness :
    extractMainContent c1Input = String.mk (snippetFrom c1Input.data (18 + 14)) :=
  C1_amended c1Input 18 (by decide) (by rfl)

/-- Concrete input for C2: 420 characters of repeated "ab " — no heading
marker, a single sentence, longer than 400 characters. -/
def c2Input : List Char := List.flatten (List.replicate 140 ['a', 'b', ' '])

/-- The truncation rule exactly as the specification words it: a candidate
longer than 400 characters is cut at the last space at or before position
400 and suffixed with the ellipsis marker (refinement reference for C2;
compare `truncate400` and `extractMainContentL`). -/
def specTruncateEllipsis (c : List Char) : List Char :=
  rsplitSpace1 (c.take 400) ++ ("..." : String).data

/-- The no-marker fallback candidate as the specification words it (§4.3
step 4): with fewer than 3 sentences the candidate is the whole trimmed
text.  The code instead pre-cuts it to 400 characters (refinement reference
for C2; compare `fallbackCandidate`). -/
def specFallbackCandidate (t : List Char) : List Char :=
  let sentences := splitSentences (pyStrip t)
  if 3 ≤ sentences.length then
    pyStrip (List.intercalate [' '] (sentences.take 3))
  else
    pyStrip t

set_option maxRecDepth 8192

/-- C2 counterexample: `c2Input` has no marker and fewer than 3 sentences,
its candidate snippet (the whole trimmed text, 419 characters) exceeds 400
characters, yet the extractor does not return the candidate cut at the last
space with an ellipsis appended: it hard-cuts at 400 characters, and the
returned string ends in "b a" — the final 'a' is the severed first letter
of an "ab" word, with no ellipsis marker. -/
theorem C2_counterexample :
    markerStart? (lowerL c2Input) = none ∧
    (splitSentences (pyStrip c2Input)).length < 3 ∧
    400 < (specFallbackCandidate c2Input).length ∧
    extractMainContentL c2Input ≠ specTruncateEllipsis (specFallbackCandidate c2Input) ∧
    (extractMainContentL c2Input).length = 400 ∧
    (extractMainContentL c2Input).drop 397 = ['b', ' ', 'a'] := by
  refine ⟨by decide, by decide, by decide, ?_, by decide, by decide⟩
  intro h
  have h1 : (extractMainContentL c2Input).length = 400 := by decide
  have h2 : (specTruncateEllipsis (specFallbackCandidate c2Input)).length = 401 := by decide
  rw [h] at h1
  omega

/-- C2 (amended): for every input with no heading marker and fewer than 3
sentences, the extractor returns the trimmed input hard-truncated to its
first 400 characters, with no ellipsis marker appended; such a result can
end mid-word.  (The cut-at-last-space-plus-ellipsis rule only applies in
the marker branch and the ≥3-sentence fallback, whose candidates can exceed
400 characters.) -/
theorem C2_amended (s : String)
    (h0 : s.data ≠ [])
    (h1 : markerStart? (lowerL s.data) = none)
    (h2 : (splitSentences (pyStrip s.data)).length < 3) :
    extractMainContent s = String.mk ((pyStrip s.data).take 400) ∧
    (extractMainContent s).length ≤ 400 := by
  have he : s.data.isEmpty = false := by
    cases h : s.data with
    | nil => exact absurd h h0
    | cons a t => rfl
  have hc : fallbackCandidate s.data = (pyStrip s.data).take 400 := by
    unfold fallbackCandidate
    rw [if_neg]
    omega
  have hlen : ((pyStrip s.data).take 400).length ≤ 400 := by
    simp [List.length_take]
  have hmain : extractMainContent s = String.mk ((pyStrip s.data).take 400) := by
    show String.mk (extractMainContentL s.data) = _
    unfold extractMainContentL
    rw [he, h1, hc, truncate400_of_length_le _ hlen]
    rfl
  refine ⟨hmain, ?_⟩
  rw [hmain]
  exact hlen

/-- C2 witness: a concrete run of `C2_amended`. -/
theorem C2_amended_witness :
    extractMainContent ("hello world") =
      String.mk ((pyStrip ("hello world" : String).data).take 400) ∧
    (extractMainContent ("hello world")).length ≤ 400 :=
  C2_amended ("hello world") (by decide) (by rfl) (by decide)

/-! ### agents.py: TranscriptionAgent.execute and OrchestratorAgent.process_query

The workflow's external collaborators are oracles; the functions return the
Python result (`none` models an uncaught exception), the list of
`transcribe_video` calls made, and the list of `save_transcription` calls
made (each with its `video_data` and `transcription` arguments). -/

/-- External collaborators: `search` is `VideoSearchTool.search_video`
(network), `transcribe` is `TranscriptionTool.transcribe_video`
(network + yt-dlp), `save` is `KnowledgeBase.save_transcription`
(filesystem; yields the saved path, or the empty-string sentinel on
failure). -/
structure Env where
  search : String → Val
  transcribe : Val → Val
  save : Val → Val → String

/-- `TranscriptionAgent.execute` (agents.py lines 24-52). -/
def TranscriptionAgent.execute (env : Env) (video_url video_title : Val) :
    Option Val × List Val × List (Val × Val) :=
  let result := env.transcribe video_url
  match result with
  | .vdict rd =>
    match rd.lookup ("success") with
    | none => (none, [video_url], [])
    | some sv =>
      if truthy sv then
        let mc? : Option String :=
          match (rd.lookup ("transcription")).getD (.vstr ("")) with
          | .vstr trs => some (extractMainContent trs)
          | tv => if truthy tv then none else some ("")
        match mc? with
        | none => (none, [video_url], [])
        | some main_content =>
          let vt := if truthy video_title then video_title
                    else (rd.lookup ("video_title")).getD (.vstr ("Unknown"))
          let video_data : Val := .vdict
            [("video_title", vt), ("video_url", video_url),
             ("raw_data", (rd.lookup ("raw_data")).getD (.vdict [])),
             ("main_content", .vstr main_content)]
          match rd.lookup ("transcription") with
          | none => (none, [video_url], [])
          | some trv =>
            let saved_path := env.save video_data trv
            let rd1 := if saved_path ≠ "" then
                         dictSet rd ("saved_path") (.vstr saved_path)
                       else rd
            let rd2 := dictSet rd1 ("main_content") (.vstr main_content)
            (some (.vdict rd2), [video_url], [(video_data, trv)])
      else (some (.vdict rd), [video_url], [])
  | _ => (none, [video_url], [])

/-- `OrchestratorAgent.process_query` (agents.py lines 105-135). -/
def OrchestratorAgent.process_query (env : Env) (query : String) :
    Option Val × List Val × List (Val × Val) :=
  let searchFail : Val := .vdict
    [("success", .vbool false), ("error", .vstr ("No videos found")),
     ("step", .vstr ("search"))]
  let sr := env.search query
  match sr with
  | .vdict sd =>
    match sd.lookup ("success") with
    | none => (none, [], [])
    | some sv =>
      if truthy sv then
        match sd.lookup ("results") with
        | none => (none, [], [])
        | some rv =>
          if truthy rv then
            match rv with
            | .vlist (video :: _) =>
              match vIndex video ("link") with
              | none => (none, [], [])
              | some url =>
                match vIndex video ("title") with
                | none => (none, [], [])
                | some title =>
                  match TranscriptionAgent.execute env url title with
                  | (none, tc, sc) => (none, tc, sc)
                  | (some tr, tc, sc) =>
                    match vIndex tr ("success") with
                    | none => (none, tc, sc)
                    | some ts =>
                      if truthy ts then
                        match vIndex tr ("transcription") with
                        | none => (none, tc, sc)
                        | some trText =>
                          match vGetD tr ("saved_path") .vnone with
                          | none => (none, tc, sc)
                          | some sp =>
                            (some (.vdict
                              [("success", .vbool true),
                               ("search_results", rv),
                               ("transcription", trText),
                               ("video_title", title),
                               ("video_url", url),
                               ("saved_path", sp),
                               ("raw_transcription", tr)]), tc, sc)
                      else
                        match vGetD tr ("error") .vnone with
                        | none => (none, tc, sc)
                        | some errv =>
                          (some (.vdict
                            [("success", .vbool false), ("error", errv),
                             ("step", .vstr ("transcription"))]), tc, sc)
            | _ => (none, [], [])
          else (some searchFail, [], [])
      else (some searchFail, [], [])
  | _ => (none, [], [])

theorem lookup_dictSet_ne (d : List (String × Val)) (k k' : String) (v : Val)
    (h : k' ≠ k) : (dictSet d k v).lookup k' = d.lookup k' := by
  have hb : (k' == k) = false := beq_eq_false_iff_ne.mpr h
  induction d with
  | nil => simp [dictSet, List.lookup, hb]
  | cons kv rest ih =>
    obtain ⟨k1, v1⟩ := kv
    by_cases hk : k1 = k
    · subst hk
      by_cases hk2 : k' = k1
      · exact absurd hk2 h
      · have hb2 : (k' == k1) = false := beq_eq_false_iff_ne.mpr hk2
        simp [dictSet, List.lookup, hb2]
    · by_cases hk2 : k' = k1
      · subst hk2
        simp [dictSet, hk, List.lookup]
      · have hb2 : (k' == k1) = false := beq_eq_false_iff_ne.mpr hk2
        simp [dictSet, hk, List.lookup, hb2, ih]

theorem truthy_vlist_cons (v : Val) (l : List Val) :
    truthy (.vlist (v :: l)) = true := rfl

theorem vIndex_vdict (d : List (String × Val)) (k : String) :
    vIndex (.vdict d) k = d.lookup k := rfl

theorem vGetD_vdict (d : List (String × Val)) (k : String) (dflt : Val) :
    vGetD (.vdict d) k dflt = some ((d.lookup k).getD dflt) := rfl

theorem truthy_vlist_nil : truthy (.vlist []) = false := rfl

/-! ### Workflow claims C3, C4, C5, C8 -/

/-- C4: for every query whose search succeeds with a first video but whose
transcription result has a falsy success flag, `process_query` returns
success=false with step="transcription" and the error taken from the
transcription result, and `save_transcription` is never invoked (the save
call log is empty; the single transcribe call is logged). -/
theorem C4_transcription_failure_no_persist (env : Env) (q : String)
    (sd : List (String × Val)) (sv : Val) (video : Val) (vs : List Val)
    (url title : Val) (td : List (String × Val)) (ts : Val)
    (hs : env.search q = .vdict sd)
    (h1 : sd.lookup ("success") = some sv)
    (h2 : truthy sv = true)
    (h3 : sd.lookup ("results") = some (.vlist (video :: vs)))
    (h4 : vIndex video ("link") = some url)
    (h5 : vIndex video ("title") = some title)
    (h6 : env.transcribe url = .vdict td)
    (h7 : td.lookup ("success") = some ts)
    (h8 : truthy ts = false) :
    OrchestratorAgent.process_query env q =
      (some (.vdict [("success", .vbool false),
                     ("error", (td.lookup ("error")).getD .vnone),
                     ("step", .vstr ("transcription"))]),
       [url], []) := by
  simp [OrchestratorAgent.process_query, TranscriptionAgent.execute,
        hs, h1, h2, h3, h4, h5, h6, h7, h8,
        truthy_vlist_cons, vIndex_vdict, vGetD_vdict]

/-- Concrete environment for the C4 witness. -/
def envC4 : Env :=
  ⟨fun _ => .vdict [("success", .vbool true),
                    ("results", .vlist [.vdict [("title", .vstr ("T")),
                                                ("link", .vstr ("U"))]])],
   fun _ => .vdict [("success", .vbool false), ("error", .vstr ("boom"))],
   fun _ _ => "p"⟩

/-- C4 witness: a concrete failing transcription run. -/
theorem C4_transcription_failure_no_persist_witness :
    OrchestratorAgent.process_query envC4 ("q") =
      (some (.vdict [("success", .vbool false),
                     ("error", .vstr ("boom")),
                     ("step", .vstr ("transcription"))]),
       [.vstr ("U")], []) :=
  C4_transcription_failure_no_persist envC4 ("q") _ _ _ _ _ _ _ _
    rfl rfl rfl rfl rfl rfl rfl rfl rfl

/-- C8: for every query whose search result has a truthy success flag but
an empty results list, `process_query` returns success=false with
step="search" and the error "No videos found", and neither transcription
nor persistence is attempted (both call logs are empty). -/
theorem C8_empty_results_fail_search_step (env : Env) (q : String)
    (sd : List (String × Val)) (sv : Val)
    (hs : env.search q = .vdict sd)
    (h1 : sd.lookup ("success") = some sv)
    (h2 : truthy sv = true)
    (h3 : sd.lookup ("results") = some (.vlist [])) :
    OrchestratorAgent.process_query env q =
      (some (.vdict [("success", .vbool false),
                     ("error", .vstr ("No videos found")),
                     ("step", .vstr ("search"))]),
       [], []) := by
  simp [OrchestratorAgent.process_query, hs, h1, h2, h3, truthy_vlist_nil]

/-- Concrete environment for the C8 witness. -/
def envC8 : Env :=
  ⟨fun _ => .vdict [("success", .vbool true), ("results", .vlist [])],
   fun _ => .vnone,
   fun _ _ => "p"⟩

/-- C8 witness: a concrete zero-result run. -/
theorem C8_empty_results_fail_search_step_witness :
    OrchestratorAgent.process_query envC8 ("q") =
      (some (.vdict [("success", .vbool false),
                     ("error", .vstr ("No videos found")),
                     ("step", .vstr ("search"))]),
       [], []) :=
  C8_empty_results_fail_search_step envC8 ("q") _ _ rfl rfl rfl rfl

/-- C5: for every run in which search and transcription succeed but every
`save_transcription` call returns the empty-string sentinel, `process_query`
still reports success=true, and the saved path in the aggregate result is
None (the transcription result never gains a "saved_path" key). -/
theorem C5_save_failure_nonfatal (env : Env) (q : String)
    (sd : List (String × Val)) (sv : Val) (video : Val) (vs : List Val)
    (url title : Val) (td : List (String × Val)) (ts : Val) (txt : String)
    (hs : env.search q = .vdict sd)
    (h1 : sd.lookup ("success") = some sv)
    (h2 : truthy sv = true)
    (h3 : sd.lookup ("results") = some (.vlist (video :: vs)))
    (h4 : vIndex video ("link") = some url)
    (h5 : vIndex video ("title") = some title)
    (h6 : env.transcribe url = .vdict td)
    (h7 : td.lookup ("success") = some ts)
    (h8 : truthy ts = true)
    (h9 : td.lookup ("transcription") = some (.vstr txt))
    (h10 : td.lookup ("saved_path") = none)
    (hsave : ∀ vd t, env.save vd t = "") :
    (OrchestratorAgent.process_query env q).1 =
      some (.vdict
        [("success", .vbool true),
         ("search_results", .vlist (video :: vs)),
         ("transcription", .vstr txt),
         ("video_title", title),
         ("video_url", url),
         ("saved_path", .vnone),
         ("raw_transcription",
          .vdict (dictSet td ("main_content")
                    (.vstr (extractMainContent txt))))]) := by
  have e1 : (dictSet td ("main_content")
               (.vstr (extractMainContent txt))).lookup ("success") = some ts := by
    rw [lookup_dictSet_ne _ _ _ _ (by decide)]; exact h7
  have e2 : (dictSet td ("main_content")
               (.vstr (extractMainContent txt))).lookup ("transcription") =
      some (.vstr txt) := by
    rw [lookup_dictSet_ne _ _ _ _ (by decide)]; exact h9
  have e3 : (dictSet td ("main_content")
               (.vstr (extractMainContent txt))).lookup ("saved_path") = none := by
    rw [lookup_dictSet_ne _ _ _ _ (by decide)]; exact h10
  simp [OrchestratorAgent.process_query, TranscriptionAgent.execute,
        hs, h1, h2, h3, h4, h5, h6, h7, h8, h9, h10,
        hsave, e1, e2, e3, truthy_vlist_cons, vIndex_vdict, vGetD_vdict]

/-- Concrete environment for the C5 witness: persistence always fails. -/
def envC5 : Env :=
  ⟨fun _ => .vdict [("success", .vbool true),
                    ("results", .vlist [.vdict [("title", .vstr ("T")),
                                                ("link", .vstr ("U"))]])],
   fun _ => .vdict [("success", .vbool true), ("transcription", .vstr ("T."))],
   fun _ _ => ""⟩

/-- C5 witness: a concrete run with failing persistence that still
succeeds, with a None saved path. -/
theorem C5_save_failure_nonfatal_witness :
    (OrchestratorAgent.process_query envC5 ("q")).1 =
      some (.vdict
        [("success", .vbool true),
         ("search_results", .vlist [.vdict [("title", .vstr ("T")),
                                            ("link", .vstr ("U"))]]),
         ("transcription", .vstr ("T.")),
         ("video_title", .vstr ("T")),
         ("video_url", .vstr ("U")),
         ("saved_path", .vnone),
         ("raw_transcription",
          .vdict [("success", .vbool true), ("transcription", .vstr ("T.")),
                  ("main_content", .vstr ("T."))])]) :=
  C5_save_failure_nonfatal envC5 ("q") _ _ _ _ _ _ _ _ ("T.")
    rfl rfl rfl rfl rfl rfl rfl rfl rfl rfl rfl (fun _ _ => rfl)

/-- Concrete environment for C3: search and transcription both succeed. -/
def envC3 : Env :=
  ⟨fun _ => .vdict [("success", .vbool true),
                    ("results", .vlist [.vdict [("title", .vstr ("T")),
                                                ("link", .vstr ("U"))]])],
   fun _ => .vdict [("success", .vbool true),
                    ("transcription", .vstr ("Hello world."))],
   fun _ _ => "kb/f.json"⟩

/-- C3: in a fully successful run, the aggregate mapping returned by
`process_query` has a truthy success flag but NO top-level "main_content"
key: the extractor's main_content only appears nested inside the
"raw_transcription" sub-mapping.  (app.py reads
`result.get("main_content")` on this aggregate, so the Main Content panel
never renders after a search, contradicting the stated intent of attaching
main_content "so UI can show it immediately".) -/
theorem C3_main_content_not_in_aggregate :
    vIndex (((OrchestratorAgent.process_query envC3 ("q")).1).getD .vnone)
        ("success") = some (.vbool true) ∧
    vIndex (((OrchestratorAgent.process_query envC3 ("q")).1).getD .vnone)
        ("main_content") = none ∧
    vIndex ((vIndex (((OrchestratorAgent.process_query envC3 ("q")).1).getD .vnone)
              ("raw_transcription")).getD .vnone) ("main_content") =
      some (.vstr (extractMainContent ("Hello world."))) :=
  ⟨rfl, rfl, rfl⟩

/-! ### tools.py: TranscriptionTool.transcribe_video -/

/-- The error-result shape of `transcribe_video`'s failure branches:
`{"success": False, "error": e, "video_url": video_url}`. -/
def transcribeErr (e : String) (video_url : Val) : Val :=
  .vdict [("success", .vbool false), ("error", .vstr e),
          ("video_url", video_url)]

/-- The fixed annotation appended to the degraded-mode transcription
(tools.py line 165). -/
def fallbackNote : String :=
  "\n\n[Note: Gemini API key not configured. Add GEMINI_API_KEY to .env for AI-powered transcription]"

/-- The degraded-mode transcription synthesized from metadata when no
Gemini credential is configured (tools.py lines 158-165). -/
def fallbackTranscription (title channel duration description : Val) : String :=
  "Video Title: " ++ pyStr title ++
  "\nChannel: " ++ pyStr channel ++
  "\nDuration: " ++ pyStr duration ++
  "\n\nDescription:\n" ++ pyStr description ++
  fallbackNote

/-- The Gemini prompt (tools.py lines 172-191). -/
def geminiPrompt (title channel duration view_count upload_date : Val)
    (video_url : Val) (description : Val) : String :=
  "You are analyzing a YouTube video. Create a comprehensive transcript/summary based on the video information.\n\nVIDEO INFORMATION:\nTitle: " ++
  pyStr title ++ "\nChannel: " ++ pyStr channel ++
  "\nDuration: " ++ pyStr duration ++ "\nViews: " ++ pyStr view_count ++
  "\nUpload Date: " ++ pyStr upload_date ++ "\nURL: " ++ pyStr video_url ++
  "\n\nVIDEO DESCRIPTION:\n" ++ pyStr description ++
  "\n\nPlease provide:\n1. A detailed summary of what the video covers\n2. Key topics and sections (imagine timestamps if needed)\n3. Main takeaways and insights\n4. Any notable points from the description\n\nFormat this as a useful transcript that someone could read to understand the video content."

/-- `TranscriptionTool.transcribe_video` (tools.py lines 142-205).
`getInfo` stands for `self.get_video_info` (yt-dlp, network), `hasModel`
for a configured `self.model`, and `gen` for
`self.model.generate_content(prompt).text`, with `Except.error` modelling
a raised exception (caught by the outer handler).  Messages of exceptions
raised by malformed `video_info` shapes are abstracted as the offending
key (Python's `str(KeyError(k))`) or a fixed tag. -/
def transcribe_video (hasModel : Bool) (gen : String → Except String String)
    (getInfo : Val → Val) (video_url : Val) : Val :=
  match getInfo video_url with
  | .vdict vd =>
    match vd.lookup ("success") with
    | none => transcribeErr ("\x27success\x27") video_url
    | some sv =>
      if truthy sv then
        if hasModel then
          match vd.lookup ("title") with
          | none => transcribeErr ("\x27title\x27") video_url
          | some t =>
            match vd.lookup ("channel") with
            | none => transcribeErr ("\x27channel\x27") video_url
            | some c =>
              match vd.lookup ("duration") with
              | none => transcribeErr ("\x27duration\x27") video_url
              | some du =>
                match vd.lookup ("view_count") with
                | none => transcribeErr ("\x27view_count\x27") video_url
                | some vc =>
                  match vd.lookup ("upload_date") with
                  | none => transcribeErr ("\x27upload_date\x27") video_url
                  | some ud =>
                    match vd.lookup ("description") with
                    | none => transcribeErr ("\x27description\x27") video_url
                    | some de =>
                      match gen (geminiPrompt t c du vc ud video_url de) with
                      | .ok txt =>
                        .vdict [("success", .vbool true),
                                ("transcription", .vstr txt),
                                ("video_title", t),
                                ("video_url", video_url),
                                ("raw_data", .vdict vd),
                                ("model_used", .vstr ("Gemini 1.5 Flash"))]
                      | .error e => transcribeErr e video_url
        else
          match vd.lookup ("title") with
          | none => transcribeErr ("\x27title\x27") video_url
          | some t =>
            match vd.lookup ("channel") with
            | none => transcribeErr ("\x27channel\x27") video_url
            | some c =>
              match vd.lookup ("duration") with
              | none => transcribeErr ("\x27duration\x27") video_url
              | some du =>
                match vd.lookup ("description") with
                | none => transcribeErr ("\x27description\x27") video_url
                | some de =>
                  .vdict [("success", .vbool true),
                          ("transcription",
                           .vstr (fallbackTranscription t c du de)),
                          ("video_title", t),
                          ("video_url", video_url),
                          ("raw_data", .vdict vd)]
      else
        transcribeErr
          ("Failed to get video info: " ++ pyStr ((vd.lookup ("error")).getD .vnone))
          video_url
  | _ => transcribeErr ("TypeError") video_url

/-- C7: for every video URL whose metadata extraction yields a successful
info mapping carrying title, channel, duration and description, the
credential-less tool returns success=true with the transcription
synthesized deterministically from exactly those metadata fields by
`fallbackTranscription`, which always ends in the note that AI
summarization is unavailable. -/
theorem C7_no_credential_fallback (gen : String → Except String String)
    (getInfo : Val → Val) (video_url : Val) (vd : List (String × Val))
    (sv t c du de : Val)
    (h0 : getInfo video_url = .vdict vd)
    (h1 : vd.lookup ("success") = some sv)
    (h2 : truthy sv = true)
    (h3 : vd.lookup ("title") = some t)
    (h4 : vd.lookup ("channel") = some c)
    (h5 : vd.lookup ("duration") = some du)
    (h6 : vd.lookup ("description") = some de) :
    transcribe_video false gen getInfo video_url =
      .vdict [("success", .vbool true),
              ("transcription", .vstr (fallbackTranscription t c du de)),
              ("video_title", t),
              ("video_url", video_url),
              ("raw_data", .vdict vd)] ∧
    ∃ p, fallbackTranscription t c du de = p ++ fallbackNote := by
  constructor
  · simp [transcribe_video, h0, h1, h2, h3, h4, h5, h6]
  · exact ⟨_, rfl⟩

/-- C7 witness: a concrete degraded-mode run. -/
theorem C7_no_credential_fallback_witness :
    transcribe_video false (fun _ => Except.error (""))
        (fun _ => .vdict [("success", .vbool true), ("title", .vstr ("T")),
                          ("channel", .vstr ("C")), ("duration", .vstr ("1:00")),
                          ("description", .vstr ("D"))])
        (.vstr ("U")) =
      .vdict [("success", .vbool true),
              ("transcription",
               .vstr (fallbackTranscription (.vstr ("T")) (.vstr ("C"))
                        (.vstr ("1:00")) (.vstr ("D")))),
              ("video_title", .vstr ("T")),
              ("video_url", .vstr ("U")),
              ("raw_data",
               .vdict [("success", .vbool true), ("title", .vstr ("T")),
                       ("channel", .vstr ("C")), ("duration", .vstr ("1:00")),
                       ("description", .vstr ("D"))])] ∧
    ∃ p, fallbackTranscription (.vstr ("T")) (.vstr ("C")) (.vstr ("1:00"))
           (.vstr ("D")) = p ++ fallbackNote :=
  C7_no_credential_fallback (fun _ => Except.error ("")) _ (.vstr ("U")) _
    _ _ _ _ _ rfl rfl rfl rfl rfl rfl rfl

/-! ### tools.py: VideoSearchTool.search_video normalization -/

/-- The per-entry normalization of `search_video` (tools.py lines 51-66),
for an entry that passed `isinstance(video, dict)`. -/
def normalizeVideo (d : List (String × Val)) : Val :=
  let channel_info := (d.lookup ("channel")).getD (.vdict [])
  let channel_name : Val :=
    match channel_info with
    | .vdict cd => (cd.lookup ("name")).getD (.vstr ("Unknown"))
    | c => if truthy c then .vstr (pyStr c) else .vstr ("Unknown")
  .vdict [("title", (d.lookup ("title")).getD (.vstr ("No Title"))),
          ("link", (d.lookup ("link")).getD .vnone),
          ("channel", channel_name),
          ("duration", (d.lookup ("duration")).getD (.vstr ("N/A"))),
          ("views", (d.lookup ("views")).getD (.vstr ("N/A"))),
          ("thumbnail", (d.lookup ("thumbnail")).getD .vnone),
          ("description",
           .vstr ((pyStr ((d.lookup ("description")).getD (.vstr ("")))).take 100
                  ++ "..."))]

/-- `search_video`'s result assembly from a decoded JSON payload
(tools.py lines 45-74); `data` is `response.json()` after a 200 response.
Non-dict entries in the slice are skipped by the `isinstance` guard; a
non-list `data["video_results"]`, or a non-dict `data` hit by the `in`
test or the subscript, raises and lands in the generic handler (line 82),
whose message text is abstracted as a fixed tag. -/
def search_video_from_payload (data : Val) (num_results : Nat)
    (query : String) : Val :=
  let typeErr : Val := .vdict
    [("success", .vbool false),
     ("error", .vstr ("Unexpected error: TypeError")),
     ("results", .vlist [])]
  let emptyOk : Val := .vdict
    [("success", .vbool true), ("results", .vlist []),
     ("count", .vint 0), ("query", .vstr query)]
  match data with
  | .vdict dd =>
    match dd.lookup ("video_results") with
    | none => emptyOk
    | some (.vlist vs) =>
      let results := (vs.take num_results).filterMap
        (fun v => match v with
          | .vdict d => some (normalizeVideo d)
          | _ => none)
      .vdict [("success", .vbool true), ("results", .vlist results),
              ("count", .vint results.length), ("query", .vstr query)]
    | some _ => typeErr
  | .vlist l =>
    if l.any (fun v => match v with
                | .vstr s => s == "video_results"
                | _ => false)
    then typeErr else emptyOk
  | .vstr s =>
    if (findSub? (("video_results" : String).data) s.data).isSome
    then typeErr else emptyOk
  | _ => typeErr

/-- C9 counterexample: normalizing the empty provider entry `{}` leaves the
"link" field as None — Python's `video.get("link")` has no default — which
is not a sentinel string such as "Unknown" or "N/A" (it is not a string at
all), contradicting the claim that every missing field, link included,
defaults to a sentinel string. -/
theorem C9_counterexample :
    vIndex (search_video_from_payload
              (.vdict [("video_results", .vlist [.vdict []])]) 1 ("q"))
        ("results") = some (.vlist [normalizeVideo []]) ∧
    vIndex (normalizeVideo []) ("link") = some .vnone ∧
    Val.isStr ((vIndex (normalizeVideo []) ("link")).getD (.vstr (""))) = false :=
  ⟨rfl, rfl, rfl⟩

/-- C9 (amended): for every provider entry, the normalization never fails
and missing title, channel, duration and views fields default to the
sentinel strings "No Title", "Unknown", "N/A" and "N/A" respectively, but
a missing link (like a missing thumbnail) defaults to None, not to a
sentinel string. -/
theorem C9_amended (d : List (String × Val))
    (ht : d.lookup ("title") = none)
    (hc : d.lookup ("channel") = none)
    (hd : d.lookup ("duration") = none)
    (hv : d.lookup ("views") = none)
    (hl : d.lookup ("link") = none) :
    vIndex (normalizeVideo d) ("title") = some (.vstr ("No Title")) ∧
    vIndex (normalizeVideo d) ("channel") = some (.vstr ("Unknown")) ∧
    vIndex (normalizeVideo d) ("duration") = some (.vstr ("N/A")) ∧
    vIndex (normalizeVideo d) ("views") = some (.vstr ("N/A")) ∧
    vIndex (normalizeVideo d) ("link") = some .vnone := by
  refine ⟨?_, ?_, ?_, ?_, ?_⟩ <;>
    simp [normalizeVideo, vIndex_vdict, List.lookup, ht, hc, hd, hv, hl]

/-- C9 witness: the defaults on the concrete empty entry. -/
theorem C9_amended_witness :
    vIndex (normalizeVideo []) ("title") = some (.vstr ("No Title")) ∧
    vIndex (normalizeVideo []) ("channel") = some (.vstr ("Unknown")) ∧
    vIndex (normalizeVideo []) ("duration") = some (.vstr ("N/A")) ∧
    vIndex (normalizeVideo []) ("views") = some (.vstr ("N/A")) ∧
    vIndex (normalizeVideo []) ("link") = some .vnone :=
  C9_amended [] rfl rfl rfl rfl rfl

/-! ### knowledge_base.py: save_transcription / load_transcription -/

/-- The filesystem as a path → parsed-content map (newest entry first;
`save` overwrites by shadowing).  The JSON text layer is the identity on
these values (`json.load` inverts `json.dump`), so files hold `Val`s. -/
abbrev FS := List (String × Val)

/-- Python `c.isalnum() or c in (' ', '-', '_')` (ASCII fragment of
`isalnum`). -/
def keepTitleChar (c : Char) : Bool :=
  c.isAlphanum || c == ' ' || c == '-' || c == '_'

/-- knowledge_base.py lines 24-25: the filesystem-sanitized title
(keep alphanumerics, space, hyphen, underscore; strip trailing
whitespace). -/
def sanitizeTitle (s : String) : String :=
  ⟨pyStripR (s.data.filter keepTitleChar)⟩

/-- `KnowledgeBase.save_transcription` (knowledge_base.py lines 16-50).
`base` is `self.base_path`; `ts1` and `ts2` are the two `datetime.now()`
readings (the `strftime` filename stamp and the `isoformat` metadata
stamp); `os.path.join` is `base ++ "/" ++ filename` here.  Returns the
updated filesystem with the saved path, or the unchanged filesystem with
the empty-string sentinel when the title filter raises (non-string title
or non-dict `video_data`), as the handler on line 48 does. -/
def save_transcription (fs : FS) (base ts1 ts2 : String)
    (video_data transcription : Val) : FS × String :=
  match video_data with
  | .vdict vd =>
    match (vd.lookup ("video_title")).getD (.vstr ("unknown")) with
    | .vstr t =>
      let filename := sanitizeTitle t ++ "_" ++ ts1 ++ ".json"
      let filepath := base ++ "/" ++ filename
      let data : Val := .vdict
        [("metadata", .vdict
           [("title", (vd.lookup ("video_title")).getD .vnone),
            ("url", (vd.lookup ("video_url")).getD .vnone),
            ("saved_at", .vstr ts2),
            ("source", .vstr ("youtube"))]),
         ("transcription", transcription),
         ("raw_data", (vd.lookup ("raw_data")).getD (.vdict [])),
         ("main_content", (vd.lookup ("main_content")).getD (.vstr ("")))]
      ((filepath, data) :: fs, filepath)
    | _ => (fs, "")
  | _ => (fs, "")

/-- `KnowledgeBase.load_transcription` (knowledge_base.py lines 71-78):
parse the named file under the base directory, or return `{}` on any
failure. -/
def load_transcription (fs : FS) (base filename : String) : Val :=
  (fs.lookup (base ++ "/" ++ filename)).getD (.vdict [])

/-- C6: saving an entry with a string title and loading the resulting file
round-trips exactly: the loaded record carries the saved title, url,
saved-at timestamp, the "youtube" source, the transcription, the raw_data
mapping and the main_content, unchanged. -/
theorem C6_save_load_roundtrip (fs : FS) (base ts1 ts2 : String)
    (vd : List (String × Val)) (title : String) (transcription : Val)
    (h : vd.lookup ("video_title") = some (.vstr title)) :
    (save_transcription fs base ts1 ts2 (.vdict vd) transcription).2 =
      base ++ "/" ++ (sanitizeTitle title ++ "_" ++ ts1 ++ ".json") ∧
    load_transcription
        (save_transcription fs base ts1 ts2 (.vdict vd) transcription).1
        base (sanitizeTitle title ++ "_" ++ ts1 ++ ".json") =
      .vdict
        [("metadata", .vdict
           [("title", .vstr title),
            ("url", (vd.lookup ("video_url")).getD .vnone),
            ("saved_at", .vstr ts2),
            ("source", .vstr ("youtube"))]),
         ("transcription", transcription),
         ("raw_data", (vd.lookup ("raw_data")).getD (.vdict [])),
         ("main_content", (vd.lookup ("main_content")).getD (.vstr ("")))] := by
  constructor
  · simp [save_transcription, h]
  · simp [save_transcription, load_transcription, List.lookup, h]

/-- C6 witness: a concrete save/load round-trip. -/
theorem C6_save_load_roundtrip_witness :
    (save_transcription [] ("kb") ("20250101_120000") ("2025-01-01T12:00:00")
        (.vdict [("video_title", .vstr ("My Video!")),
                 ("video_url", .vstr ("U")),
                 ("raw_data", .vdict [("views", .vint 7)]),
                 ("main_content", .vstr ("MC"))])
        (.vstr ("TR"))).2 =
      ("kb" : String) ++ "/" ++
        (sanitizeTitle ("My Video!") ++ "_" ++ "20250101_120000" ++ ".json") ∧
    load_transcription
        (save_transcription [] ("kb") ("20250101_120000") ("2025-01-01T12:00:00")
          (.vdict [("video_title", .vstr ("My Video!")),
                   ("video_url", .vstr ("U")),
                   ("raw_data", .vdict [("views", .vint 7)]),
                   ("main_content", .vstr ("MC"))])
          (.vstr ("TR"))).1
        ("kb") (sanitizeTitle ("My Video!") ++ "_" ++ "20250101_120000" ++ ".json") =
      .vdict
        [("metadata", .vdict
           [("title", .vstr ("My Video!")),
            ("url", .vstr ("U")),
            ("saved_at", .vstr ("2025-01-01T12:00:00")),
            ("source", .vstr ("youtube"))]),
         ("transcription", .vstr ("TR")),
         ("raw_data", .vdict [("views", .vint 7)]),
         ("main_content", .vstr ("MC"))] :=
  C6_save_load_roundtrip [] ("kb") ("20250101_120000") ("2025-01-01T12:00:00")
    _ ("My Video!") (.vstr ("TR")) rfl

end MultiAgent
